import Mathlib

/-!
Runtime PM support code for OMAP: `arch/arm/mach-omap2/pm_bus.c`.

A shallow embedding of the five functions of `pm_bus.c`, in the build where
`CONFIG_PM_RUNTIME` and `CONFIG_SUSPEND` are both set (the build in which the
four callbacks are functions and not the `NULL` macros of the `#else` arms).

The functions of the file only sequence calls to collaborators that live
elsewhere in the kernel.  Each such call is recorded in a trace, in program
order, and the code a collaborator returns is an input of the model.
-/

namespace PmBus

/-! ## Calls to collaborators -/

/-- One entry of the trace: a call that leaves `pm_bus.c`. -/
inductive Call where
  /-- Call of `pm_generic_runtime_suspend(dev)`. -/
  | pm_generic_runtime_suspend
  /-- Call of `pm_generic_runtime_resume(dev)`. -/
  | pm_generic_runtime_resume
  /-- Call of `omap_device_idle(pdev)`. -/
  | omap_device_idle
  /-- Call of `omap_device_enable(pdev)`. -/
  | omap_device_enable
  /-- The warning printed by `WARN_ON(r)` when `r` is non-zero -/
  | WARN_ON
  /-- Call of the driver hook `drv->pm->suspend_noirq(dev)`. -/
  | drv_suspend_noirq
  /-- Call of the driver hook `drv->pm->resume_noirq(dev)`. -/
  | drv_resume_noirq
  /-- Call of `pm_runtime_put_sync(dev)`. -/
  | pm_runtime_put_sync
  /-- Call of `pm_runtime_get_noresume(dev)`. -/
  | pm_runtime_get_noresume
  /-- Call of `platform_bus_get_pm_ops()`. -/
  | platform_bus_get_pm_ops
  /-- Call of `kmemdup(pm, sizeof(struct dev_pm_ops), GFP_KERNEL)`. -/
  | kmemdup
  /-- Call of `pr_err(...)`. -/
  | pr_err
  /-- Call of `platform_bus_set_pm_ops(omap_pm)`. -/
  | platform_bus_set_pm_ops
  deriving DecidableEq, Repr

/-- Number of times the call `c` occurs in the trace `tr`. -/
def calls (c : Call) (tr : List Call) : Nat :=
  tr.count c

/-- Ordering of two calls in a trace: from the first call of `b` on, the trace
holds no call of `a`; so every call of `a` is ahead of every call of `b`. -/
def precedes (a b : Call) (tr : List Call) : Bool :=
  !(tr.dropWhile (fun c => c != b)).contains a

/-! ## Devices and drivers -/

/-- The two members of a driver's `struct dev_pm_ops` that `pm_bus.c` reads.
A member is `none` for a `NULL` pointer and `some c` for a callback whose call
returns the code `c`. -/
structure drv_pm_ops where
  suspend_noirq : Option Int
  resume_noirq : Option Int
  deriving DecidableEq, Repr

/-- The part of `struct device_driver` that is read: `drv->pm`, which may be `NULL`. -/
structure device_driver where
  pm : Option drv_pm_ops
  deriving DecidableEq, Repr

/-- The part of `struct device` that is read or changed: the address held in
`dev->parent`, `dev->driver` (which may be `NULL`), and the runtime PM usage
counter `dev->power.usage_count`. -/
structure device where
  parent : Nat
  driver : Option device_driver
  usage_count : Int
  deriving DecidableEq, Repr

/-- What the collaborators of the runtime path answer: the address
`&omap_device_parent` and the code each of the four functions returns. -/
structure Env where
  omap_device_parent : Nat
  pm_generic_runtime_suspend : Int
  pm_generic_runtime_resume : Int
  omap_device_idle : Int
  omap_device_enable : Int
  deriving DecidableEq, Repr

/-- The device operated on together with the calls made so far. -/
structure World where
  dev : device
  trace : List Call
  deriving DecidableEq, Repr

/-- A world in which no call has been made yet. -/
def World.start (dev : device) : World :=
  { dev := dev, trace := [] }

/-- Append one call to the trace. -/
def World.log (w : World) (c : Call) : World :=
  { w with trace := w.trace ++ [c] }

/-! ## Collaborators -/

/-- Call of `pm_generic_runtime_suspend(dev)`. -/
def pm_generic_runtime_suspend (env : Env) (w : World) : Int × World :=
  (env.pm_generic_runtime_suspend, w.log Call.pm_generic_runtime_suspend)

/-- Call of `pm_generic_runtime_resume(dev)`. -/
def pm_generic_runtime_resume (env : Env) (w : World) : Int × World :=
  (env.pm_generic_runtime_resume, w.log Call.pm_generic_runtime_resume)

/-- Call of `omap_device_idle(pdev)`. -/
def omap_device_idle (env : Env) (w : World) : Int × World :=
  (env.omap_device_idle, w.log Call.omap_device_idle)

/-- Call of `omap_device_enable(pdev)`. -/
def omap_device_enable (env : Env) (w : World) : Int × World :=
  (env.omap_device_enable, w.log Call.omap_device_enable)

/-- The statement `WARN_ON(r);`: a warning when `r` is non-zero, nothing otherwise. -/
def WARN_ON (r : Int) (w : World) : World :=
  if r ≠ 0 then w.log Call.WARN_ON else w

/-- Modelled from the spec: `pm_runtime_put_sync` (declared in
`linux/pm_runtime.h`, not part of this file) is the release of the power-usage
counter, the counter minus one. -/
def pm_runtime_put_sync (w : World) : World :=
  { dev := { w.dev with usage_count := w.dev.usage_count - 1 },
    trace := w.trace ++ [Call.pm_runtime_put_sync] }

/-- Modelled from the spec: `pm_runtime_get_noresume` (declared in
`linux/pm_runtime.h`, not part of this file) is the acquire of the power-usage
counter without resume side effects, the counter plus one. -/
def pm_runtime_get_noresume (w : World) : World :=
  { dev := { w.dev with usage_count := w.dev.usage_count + 1 },
    trace := w.trace ++ [Call.pm_runtime_get_noresume] }

/-! ## The runtime path -/

/-- Embedding of `omap_pm_runtime_suspend`, lines 23-36. -/
def omap_pm_runtime_suspend (env : Env) (w : World) : Int × World :=
  -- ret = pm_generic_runtime_suspend(dev);
  let (ret, w) := pm_generic_runtime_suspend env w
  -- if (!ret && dev->parent == &omap_device_parent)
  if ret = 0 ∧ w.dev.parent = env.omap_device_parent then
    -- r = omap_device_idle(pdev);
    let (r, w) := omap_device_idle env w
    -- WARN_ON(r);
    let w := WARN_ON r w
    (ret, w)
  else
    (ret, w)

/-- Embedding of `omap_pm_runtime_resume`, lines 38-49. -/
def omap_pm_runtime_resume (env : Env) (w : World) : Int × World :=
  -- if (dev->parent == &omap_device_parent)
  let w :=
    if w.dev.parent = env.omap_device_parent then
      -- r = omap_device_enable(pdev);
      let (r, w) := omap_device_enable env w
      -- WARN_ON(r);
      WARN_ON r w
    else
      w
  -- return pm_generic_runtime_resume(dev);
  pm_generic_runtime_resume env w

/-! ## The system suspend path -/

/-- Embedding of `omap_pm_suspend_noirq`, lines 56-78. -/
def omap_pm_suspend_noirq (w : World) : Int × World :=
  -- struct device_driver *drv = dev->driver;
  match w.dev.driver with
  | none =>
    -- if (!drv) return 0;
    (0, w)
  | some drv =>
    -- if (drv->pm) { if (drv->pm->suspend_noirq) ret = drv->pm->suspend_noirq(dev); }
    let (ret, w) :=
      match drv.pm with
      | none => ((0 : Int), w)
      | some pm =>
        match pm.suspend_noirq with
        | none => ((0 : Int), w)
        | some c => (c, w.log Call.drv_suspend_noirq)
    -- pm_runtime_put_sync(dev);
    let w := pm_runtime_put_sync w
    (ret, w)

/-- Embedding of `omap_pm_resume_noirq`, lines 80-101. -/
def omap_pm_resume_noirq (w : World) : Int × World :=
  -- struct device_driver *drv = dev->driver;
  let drv := w.dev.driver
  -- pm_runtime_get_noresume(dev);
  let w := pm_runtime_get_noresume w
  match drv with
  | none =>
    -- if (!drv) return 0;
    (0, w)
  | some drv =>
    -- if (drv->pm) { if (drv->pm->resume_noirq) ret = drv->pm->resume_noirq(dev); }
    match drv.pm with
    | none => (0, w)
    | some pm =>
      match pm.resume_noirq with
      | none => (0, w)
      | some c => (c, w.log Call.drv_resume_noirq)

/-! ## Installing the callbacks on the platform bus -/

/-- A value of a callback member of `struct dev_pm_ops`: `NULL`, one of the four
functions of this file, or a function that lives at some other address. -/
inductive FnPtr where
  | NULL
  | omap_pm_runtime_suspend
  | omap_pm_runtime_resume
  | omap_pm_suspend_noirq
  | omap_pm_resume_noirq
  | addr (a : Nat)
  deriving DecidableEq, Repr

/-- A bus-level `struct dev_pm_ops`.  The structure is declared in `linux/pm.h`;
the four members assigned by `omap_pm_runtime_init` are named, all its other
members are indexed by the type `F`. -/
structure dev_pm_ops (F : Type) where
  runtime_suspend : FnPtr
  runtime_resume : FnPtr
  suspend_noirq : FnPtr
  resume_noirq : FnPtr
  other : F → FnPtr

/-- Constant `ENOMEM` of `asm-generic/errno-base.h`. -/
def ENOMEM : Int := 12

/-- Constant `ENODEV` of `asm-generic/errno-base.h`. -/
def ENODEV : Int := 19

/-- Kernel state seen by `omap_pm_runtime_init`: the `struct dev_pm_ops` objects
in memory (the address of an object is its position), the pointer
`platform_bus_type.pm` (`none` is `NULL`), whether the allocator can serve a
request, and the calls made so far. -/
structure Kernel (F : Type) where
  mem : List (dev_pm_ops F)
  platform_bus_pm : Option Nat
  kmalloc_ok : Bool
  trace : List Call

/-- Append one call to the trace. -/
def Kernel.log {F : Type} (k : Kernel F) (c : Call) : Kernel F :=
  { k with trace := k.trace ++ [c] }

/-- The assignment `p->member = v`, with `upd` the change of that member. -/
def Kernel.store {F : Type} (k : Kernel F) (p : Nat) (upd : dev_pm_ops F → dev_pm_ops F) :
    Kernel F :=
  match k.mem[p]? with
  | some t => { k with mem := k.mem.set p (upd t) }
  | none => k

/-- The table the bus currently dispatches through, if any. -/
def Kernel.published {F : Type} (k : Kernel F) : Option (dev_pm_ops F) :=
  match k.platform_bus_pm with
  | some p => k.mem[p]?
  | none => none

/-- Modelled from the spec: `platform_bus_get_pm_ops` (defined in
`drivers/base/platform.c`) retrieves the reference to the bus's current
operations table, absent when no table is registered. -/
def platform_bus_get_pm_ops {F : Type} (k : Kernel F) : Option Nat × Kernel F :=
  (k.platform_bus_pm, k.log Call.platform_bus_get_pm_ops)

/-- Modelled from the spec: `platform_bus_set_pm_ops` (defined in
`drivers/base/platform.c`) publishes the given table as the bus-wide
operations table. -/
def platform_bus_set_pm_ops {F : Type} (pm : Nat) (k : Kernel F) : Kernel F :=
  { k with platform_bus_pm := some pm, trace := k.trace ++ [Call.platform_bus_set_pm_ops] }

/-- Modelled from the spec: `kmemdup` (defined in `mm/util.c`) allocates a new
table as a field-for-field copy of the one at `src`, and yields `NULL` when the
allocation fails.  A new object is placed after all existing ones. -/
def kmemdup {F : Type} (src : Nat) (k : Kernel F) : Option Nat × Kernel F :=
  let k := k.log Call.kmemdup
  match k.kmalloc_ok, k.mem[src]? with
  | true, some t => (some k.mem.length, { k with mem := k.mem ++ [t] })
  | _, _ => (none, k)

/-- The statement `pr_err(...)`. -/
def pr_err {F : Type} (k : Kernel F) : Kernel F :=
  k.log Call.pr_err

/-- Embedding of `omap_pm_runtime_init`, lines 107-134. -/
def omap_pm_runtime_init {F : Type} (k : Kernel F) : Int × Kernel F :=
  -- pm = platform_bus_get_pm_ops();
  let (pm, k) := platform_bus_get_pm_ops k
  match pm with
  | none =>
    -- if (!pm) { pr_err(...); return -ENODEV; }
    let k := pr_err k
    (-ENODEV, k)
  | some pm =>
    -- omap_pm = kmemdup(pm, sizeof(struct dev_pm_ops), GFP_KERNEL);
    let (omap_pm, k) := kmemdup pm k
    match omap_pm with
    | none =>
      -- if (!omap_pm) { pr_err(...); return -ENOMEM; }
      let k := pr_err k
      (-ENOMEM, k)
    | some omap_pm =>
      -- omap_pm->runtime_suspend = omap_pm_runtime_suspend;
      let k := k.store omap_pm (fun t => { t with runtime_suspend := FnPtr.omap_pm_runtime_suspend })
      -- omap_pm->runtime_resume = omap_pm_runtime_resume;
      let k := k.store omap_pm (fun t => { t with runtime_resume := FnPtr.omap_pm_runtime_resume })
      -- omap_pm->suspend_noirq = omap_pm_suspend_noirq;
      let k := k.store omap_pm (fun t => { t with suspend_noirq := FnPtr.omap_pm_suspend_noirq })
      -- omap_pm->resume_noirq = omap_pm_resume_noirq;
      let k := k.store omap_pm (fun t => { t with resume_noirq := FnPtr.omap_pm_resume_noirq })
      -- platform_bus_set_pm_ops(omap_pm);
      let k := platform_bus_set_pm_ops omap_pm k
      -- return 0;
      (0, k)

/-! ## Readers used in the statements -/

/-- The noirq-suspend hook a driver provides: `drv->pm && drv->pm->suspend_noirq`. -/
def device_driver.suspend_noirq_hook (drv : device_driver) : Option Int :=
  match drv.pm with
  | none => none
  | some pm => pm.suspend_noirq

/-- The noirq-resume hook the driver of a device provides:
`dev->driver && dev->driver->pm && dev->driver->pm->resume_noirq`. -/
def device.resume_noirq_hook (dev : device) : Option Int :=
  match dev.driver with
  | none => none
  | some drv =>
    match drv.pm with
    | none => none
    | some pm => pm.resume_noirq

/-! ## Sample inputs -/

/-- A device without a driver, holding one usage reference. -/
def driverless : device :=
  { parent := 0, driver := none, usage_count := 1 }

/-- Collaborators of the runtime path: domain parent at address 7, the generic
operations succeed, the domain operations fail with `-EINVAL`. -/
def sampleEnv : Env :=
  { omap_device_parent := 7, pm_generic_runtime_suspend := 0, pm_generic_runtime_resume := 0,
    omap_device_idle := -22, omap_device_enable := -22 }

/-- A driver whose two noirq hooks fail with `-EBUSY` and `-EIO`. -/
def sampleDriver : device_driver :=
  { pm := some { suspend_noirq := some (-16), resume_noirq := some (-5) } }

/-- A device of the OMAP domain (parent at address 7) bound to `sampleDriver`. -/
def domainDevice : device :=
  { parent := 7, driver := some sampleDriver, usage_count := 1 }

/-- A device whose parent (address 3) is not the OMAP domain parent. -/
def plainDevice : device :=
  { parent := 3, driver := some sampleDriver, usage_count := 1 }

/-- A bus table with two members besides the four named ones. -/
def sampleTable : dev_pm_ops Bool :=
  { runtime_suspend := FnPtr.addr 100, runtime_resume := FnPtr.addr 101,
    suspend_noirq := FnPtr.NULL, resume_noirq := FnPtr.NULL,
    other := fun b => if b then FnPtr.addr 102 else FnPtr.addr 103 }

/-- A kernel whose platform bus dispatches through `sampleTable`, at address 0. -/
def sampleKernel : Kernel Bool :=
  { mem := [sampleTable], platform_bus_pm := some 0, kmalloc_ok := true, trace := [] }

/-! ## Meaning of the ordering predicate -/

/-- The predicate `precedes a b` holds of a trace exactly when every position
of a call of `a` is strictly below every position of a call of `b`. -/
theorem precedes_iff (a b : Call) (tr : List Call) :
    precedes a b tr = true ↔
      ∀ i j : Nat, tr[i]? = some b → tr[j]? = some a → j < i := by
  induction tr with
  | nil => simp [precedes]
  | cons c tr ih =>
    by_cases hc : c = b
    · subst hc
      have hdrop : precedes a c (c :: tr) = !(c :: tr).contains a := by
        simp [precedes, List.dropWhile_cons]
      rw [hdrop]
      constructor
      · intro hmem i j _ hj
        have hin : a ∈ c :: tr := List.mem_iff_getElem?.mpr ⟨j, hj⟩
        simp [hin] at hmem
      · intro hall
        by_cases hin : a ∈ c :: tr
        · obtain ⟨j, hj⟩ := List.mem_iff_getElem?.mp hin
          exact absurd (hall 0 j (by simp) hj) (Nat.not_lt_zero j)
        · simp [hin]
    · have hstep : precedes a b (c :: tr) = precedes a b tr := by
        simp [precedes, List.dropWhile_cons, hc]
      rw [hstep, ih]
      constructor
      · intro hall i j hi hj
        cases i with
        | zero => simp at hi; exact absurd hi hc
        | succ i =>
          cases j with
          | zero => exact Nat.succ_pos i
          | succ j => exact Nat.succ_lt_succ (hall i j (by simpa using hi) (by simpa using hj))
      · intro hall i j hi hj
        exact Nat.lt_of_succ_lt_succ (hall (i + 1) (j + 1) (by simpa using hi) (by simpa using hj))

/-! ## The runtime path: theorems -/

/-- C3. For a device whose parent is `omap_device_parent`, `omap_pm_runtime_suspend`
calls the generic runtime-suspend exactly once, no domain-idle call comes ahead
of it, domain-idle is called once when the generic suspend returned 0 and not at
all otherwise, and the generic code is what is returned. -/
theorem runtime_suspend_ordering (env : Env) (dev : device)
    (h : dev.parent = env.omap_device_parent) :
    calls Call.pm_generic_runtime_suspend
        (omap_pm_runtime_suspend env (World.start dev)).2.trace = 1
    ∧ precedes Call.pm_generic_runtime_suspend Call.omap_device_idle
        (omap_pm_runtime_suspend env (World.start dev)).2.trace = true
    ∧ calls Call.omap_device_idle (omap_pm_runtime_suspend env (World.start dev)).2.trace
        = (if env.pm_generic_runtime_suspend = 0 then 1 else 0)
    ∧ (omap_pm_runtime_suspend env (World.start dev)).1 = env.pm_generic_runtime_suspend := by
  by_cases h0 : env.pm_generic_runtime_suspend = 0 <;>
  by_cases hr : env.omap_device_idle = 0 <;>
  simp [omap_pm_runtime_suspend, pm_generic_runtime_suspend, omap_device_idle, WARN_ON,
    World.start, World.log, calls, precedes, h, h0, hr]

/-- Witness of C3 on `domainDevice`. -/
theorem runtime_suspend_ordering_witness :
    domainDevice.parent = sampleEnv.omap_device_parent
    ∧ calls Call.omap_device_idle
        (omap_pm_runtime_suspend sampleEnv (World.start domainDevice)).2.trace = 1
    ∧ (omap_pm_runtime_suspend sampleEnv (World.start domainDevice)).1 = 0 :=
  ⟨by decide,
   (runtime_suspend_ordering sampleEnv domainDevice (by decide)).2.2.1,
   (runtime_suspend_ordering sampleEnv domainDevice (by decide)).2.2.2⟩

/-- C4. For every device and every outcome of the domain-idle call,
`omap_pm_runtime_suspend` returns the code of the generic runtime-suspend. -/
theorem runtime_suspend_returns_generic (env : Env) (dev : device) :
    (omap_pm_runtime_suspend env (World.start dev)).1 = env.pm_generic_runtime_suspend := by
  simp only [omap_pm_runtime_suspend, pm_generic_runtime_suspend, omap_device_idle]
  split <;> rfl

/-- C5. For a device whose parent is `omap_device_parent`, `omap_pm_runtime_resume`
calls domain-enable exactly once, no generic runtime-resume call comes ahead of
it, the generic runtime-resume is called exactly once whatever domain-enable
returned, and the generic code is what is returned. -/
theorem runtime_resume_ordering (env : Env) (dev : device)
    (h : dev.parent = env.omap_device_parent) :
    calls Call.omap_device_enable (omap_pm_runtime_resume env (World.start dev)).2.trace = 1
    ∧ precedes Call.omap_device_enable Call.pm_generic_runtime_resume
        (omap_pm_runtime_resume env (World.start dev)).2.trace = true
    ∧ calls Call.pm_generic_runtime_resume
        (omap_pm_runtime_resume env (World.start dev)).2.trace = 1
    ∧ (omap_pm_runtime_resume env (World.start dev)).1 = env.pm_generic_runtime_resume := by
  by_cases hr : env.omap_device_enable = 0 <;>
  simp [omap_pm_runtime_resume, pm_generic_runtime_resume, omap_device_enable, WARN_ON,
    World.start, World.log, calls, precedes, h, hr]

/-- Witness of C5 on `domainDevice`. -/
theorem runtime_resume_ordering_witness :
    domainDevice.parent = sampleEnv.omap_device_parent
    ∧ calls Call.omap_device_enable
        (omap_pm_runtime_resume sampleEnv (World.start domainDevice)).2.trace = 1 :=
  ⟨by decide, (runtime_resume_ordering sampleEnv domainDevice (by decide)).1⟩

/-- C6. For a device whose parent is not `omap_device_parent`, neither
`omap_pm_runtime_suspend` nor `omap_pm_runtime_resume` calls domain-idle or
domain-enable; each calls its generic operation exactly once and returns its code. -/
theorem runtime_non_domain (env : Env) (dev : device)
    (h : dev.parent ≠ env.omap_device_parent) :
    (calls Call.omap_device_idle (omap_pm_runtime_suspend env (World.start dev)).2.trace = 0
      ∧ calls Call.omap_device_enable (omap_pm_runtime_suspend env (World.start dev)).2.trace = 0
      ∧ calls Call.pm_generic_runtime_suspend
          (omap_pm_runtime_suspend env (World.start dev)).2.trace = 1
      ∧ (omap_pm_runtime_suspend env (World.start dev)).1 = env.pm_generic_runtime_suspend)
    ∧ (calls Call.omap_device_idle (omap_pm_runtime_resume env (World.start dev)).2.trace = 0
      ∧ calls Call.omap_device_enable (omap_pm_runtime_resume env (World.start dev)).2.trace = 0
      ∧ calls Call.pm_generic_runtime_resume
          (omap_pm_runtime_resume env (World.start dev)).2.trace = 1
      ∧ (omap_pm_runtime_resume env (World.start dev)).1 = env.pm_generic_runtime_resume) := by
  simp [omap_pm_runtime_suspend, omap_pm_runtime_resume, pm_generic_runtime_suspend,
    pm_generic_runtime_resume, World.start, World.log, calls, h]

/-- Witness of C6 on `plainDevice`. -/
theorem runtime_non_domain_witness :
    plainDevice.parent ≠ sampleEnv.omap_device_parent
    ∧ calls Call.omap_device_idle
        (omap_pm_runtime_suspend sampleEnv (World.start plainDevice)).2.trace = 0 :=
  ⟨by decide, (runtime_non_domain sampleEnv plainDevice (by decide)).1.1⟩

/-! ## The system suspend path: theorems -/

/-- C9. On a device with an attached driver, `omap_pm_suspend_noirq` calls the
driver's noirq-suspend hook once if the driver provides one and not at all
otherwise, then performs exactly one `pm_runtime_put_sync`, never ahead of the
hook and whatever the hook returned, and returns the hook's code, or 0 when
there is no hook. -/
theorem suspend_noirq_with_driver (dev : device) (drv : device_driver)
    (h : dev.driver = some drv) :
    calls Call.drv_suspend_noirq (omap_pm_suspend_noirq (World.start dev)).2.trace
        = (if drv.suspend_noirq_hook.isSome then 1 else 0)
    ∧ calls Call.pm_runtime_put_sync (omap_pm_suspend_noirq (World.start dev)).2.trace = 1
    ∧ precedes Call.drv_suspend_noirq Call.pm_runtime_put_sync
        (omap_pm_suspend_noirq (World.start dev)).2.trace = true
    ∧ (omap_pm_suspend_noirq (World.start dev)).2.dev.usage_count = dev.usage_count - 1
    ∧ (omap_pm_suspend_noirq (World.start dev)).1 = drv.suspend_noirq_hook.getD 0 := by
  rcases drv with ⟨_ | ⟨_ | c, rn⟩⟩ <;>
  simp [omap_pm_suspend_noirq, pm_runtime_put_sync, device_driver.suspend_noirq_hook,
    World.start, World.log, calls, precedes, h]

/-- Witness of C9 on `domainDevice`, whose hook fails with -16. -/
theorem suspend_noirq_with_driver_witness :
    domainDevice.driver = some sampleDriver
    ∧ calls Call.pm_runtime_put_sync
        (omap_pm_suspend_noirq (World.start domainDevice)).2.trace = 1
    ∧ (omap_pm_suspend_noirq (World.start domainDevice)).1 = -16 :=
  ⟨by decide,
   (suspend_noirq_with_driver domainDevice sampleDriver (by decide)).2.1,
   (suspend_noirq_with_driver domainDevice sampleDriver (by decide)).2.2.2.2⟩

/-- C10. On every device, `omap_pm_resume_noirq` performs exactly one
`pm_runtime_get_noresume`, and no call of the driver's noirq-resume hook comes
ahead of it; the hook is called once if the device has a driver that provides
one and not at all otherwise; the function returns the hook's code when the hook
was called and 0 otherwise. -/
theorem resume_noirq_contract (dev : device) :
    calls Call.pm_runtime_get_noresume (omap_pm_resume_noirq (World.start dev)).2.trace = 1
    ∧ precedes Call.pm_runtime_get_noresume Call.drv_resume_noirq
        (omap_pm_resume_noirq (World.start dev)).2.trace = true
    ∧ calls Call.drv_resume_noirq (omap_pm_resume_noirq (World.start dev)).2.trace
        = (if dev.resume_noirq_hook.isSome then 1 else 0)
    ∧ (omap_pm_resume_noirq (World.start dev)).2.dev.usage_count = dev.usage_count + 1
    ∧ (omap_pm_resume_noirq (World.start dev)).1 = dev.resume_noirq_hook.getD 0 := by
  rcases dev with ⟨parent, _ | ⟨_ | ⟨sn, _ | c⟩⟩, n⟩ <;>
  simp [omap_pm_resume_noirq, pm_runtime_get_noresume, device.resume_noirq_hook,
    World.start, World.log, calls, precedes]

/-- C7, the code at a device without a driver. `omap_pm_suspend_noirq` returns 0
through the early return of line 62: it calls no hook and it does not reach
`pm_runtime_put_sync`, so the usage counter keeps its value; `omap_pm_resume_noirq`
returns 0, calls no hook and performs one `pm_runtime_get_noresume`. -/
theorem noirq_driverless_suspend_skips_release :
    (omap_pm_suspend_noirq (World.start driverless)).1 = 0
    ∧ calls Call.drv_suspend_noirq (omap_pm_suspend_noirq (World.start driverless)).2.trace = 0
    ∧ calls Call.pm_runtime_put_sync (omap_pm_suspend_noirq (World.start driverless)).2.trace = 0
    ∧ (omap_pm_suspend_noirq (World.start driverless)).2.dev.usage_count = 1
    ∧ (omap_pm_resume_noirq (World.start driverless)).1 = 0
    ∧ calls Call.drv_resume_noirq (omap_pm_resume_noirq (World.start driverless)).2.trace = 0
    ∧ calls Call.pm_runtime_get_noresume
        (omap_pm_resume_noirq (World.start driverless)).2.trace = 1 := by
  decide

/-- C1, the code at a device without a driver. The counter is 1 before
`omap_pm_suspend_noirq`, still 1 after it, and 2 after the `omap_pm_resume_noirq`
that follows: the sequence leaves the counter one above its initial value. -/
theorem noirq_cycle_driverless_unbalanced :
    driverless.usage_count = 1
    ∧ (omap_pm_suspend_noirq (World.start driverless)).2.dev.usage_count = 1
    ∧ (omap_pm_resume_noirq
        (omap_pm_suspend_noirq (World.start driverless)).2).2.dev.usage_count = 2 := by
  decide

/-- The counter over one `omap_pm_suspend_noirq` / `omap_pm_resume_noirq` cycle:
unchanged for a device with a driver, one higher for a device without. -/
theorem noirq_cycle_usage_count (dev : device) :
    (omap_pm_resume_noirq (omap_pm_suspend_noirq (World.start dev)).2).2.dev.usage_count
      = (if dev.driver.isSome then dev.usage_count else dev.usage_count + 1) := by
  rcases dev with ⟨parent, _ | ⟨_ | ⟨_ | a, _ | b⟩⟩, n⟩ <;>
  simp [omap_pm_resume_noirq, omap_pm_suspend_noirq, pm_runtime_get_noresume,
    pm_runtime_put_sync, World.start, World.log]

/-! ## Installing the callbacks: theorems -/

/-- C8. `omap_pm_runtime_init` returns `-ENODEV` when the bus has no operations
table and `-ENOMEM` when `kmemdup` fails; in both cases it does not call
`platform_bus_set_pm_ops`, and the bus pointer and the tables in memory are as
before. Otherwise it returns 0 and calls `platform_bus_set_pm_ops` exactly once. -/
theorem init_failure_atomic {F : Type} (k : Kernel F) :
    match k.platform_bus_pm with
    | none =>
      (omap_pm_runtime_init k).1 = -ENODEV
      ∧ calls Call.platform_bus_set_pm_ops (omap_pm_runtime_init k).2.trace
          = calls Call.platform_bus_set_pm_ops k.trace
      ∧ (omap_pm_runtime_init k).2.platform_bus_pm = k.platform_bus_pm
      ∧ (omap_pm_runtime_init k).2.mem = k.mem
    | some p =>
      if (kmemdup p k).1 = none then
        (omap_pm_runtime_init k).1 = -ENOMEM
        ∧ calls Call.platform_bus_set_pm_ops (omap_pm_runtime_init k).2.trace
            = calls Call.platform_bus_set_pm_ops k.trace
        ∧ (omap_pm_runtime_init k).2.platform_bus_pm = k.platform_bus_pm
        ∧ (omap_pm_runtime_init k).2.mem = k.mem
      else
        (omap_pm_runtime_init k).1 = 0
        ∧ calls Call.platform_bus_set_pm_ops (omap_pm_runtime_init k).2.trace
            = calls Call.platform_bus_set_pm_ops k.trace + 1 := by
  rcases k with ⟨mem, _ | p, ok, tr⟩
  · simp [omap_pm_runtime_init, platform_bus_get_pm_ops, pr_err, Kernel.log, calls]
  · cases ok <;> cases hT : mem[p]? <;>
    simp [omap_pm_runtime_init, platform_bus_get_pm_ops, kmemdup, pr_err, Kernel.log,
      Kernel.store, platform_bus_set_pm_ops, calls, hT]

/-- C2. When `omap_pm_runtime_init` returns 0 on a bus whose table is `T` (at
address `p`), the table the bus then dispatches through is `T` with the members
`runtime_suspend`, `runtime_resume`, `suspend_noirq` and `resume_noirq` replaced
by the four functions of this file and every other member as in `T`; it is a
new object, and the object at `p` is still `T`. -/
theorem init_table_integrity {F : Type} (k : Kernel F) (p : Nat) (T : dev_pm_ops F)
    (hp : k.platform_bus_pm = some p) (hT : k.mem[p]? = some T)
    (hok : (omap_pm_runtime_init k).1 = 0) :
    (omap_pm_runtime_init k).2.published
        = some { T with
            runtime_suspend := FnPtr.omap_pm_runtime_suspend
            runtime_resume := FnPtr.omap_pm_runtime_resume
            suspend_noirq := FnPtr.omap_pm_suspend_noirq
            resume_noirq := FnPtr.omap_pm_resume_noirq }
    ∧ (omap_pm_runtime_init k).2.platform_bus_pm ≠ some p
    ∧ (omap_pm_runtime_init k).2.mem[p]? = some T := by
  rcases k with ⟨mem, pm, ok, tr⟩
  simp only at hp hT
  subst hp
  have hlt : p < mem.length := (List.getElem?_eq_some_iff.mp hT).1
  cases ok
  · simp [omap_pm_runtime_init, platform_bus_get_pm_ops, kmemdup, pr_err, Kernel.log, hT,
      ENOMEM] at hok
  · simp [omap_pm_runtime_init, platform_bus_get_pm_ops, kmemdup, Kernel.log,
      Kernel.store, Kernel.published, platform_bus_set_pm_ops, hT]
    refine ⟨by omega, ?_⟩
    rw [List.getElem?_append_left hlt]
    exact hT

/-- Witness of C2 on `sampleKernel`. -/
theorem init_table_integrity_witness :
    sampleKernel.platform_bus_pm = some 0
    ∧ sampleKernel.mem[0]? = some sampleTable
    ∧ (omap_pm_runtime_init sampleKernel).1 = 0
    ∧ (omap_pm_runtime_init sampleKernel).2.platform_bus_pm ≠ some 0
    ∧ (omap_pm_runtime_init sampleKernel).2.mem[0]? = some sampleTable :=
  ⟨rfl, rfl, by decide,
   (init_table_integrity sampleKernel 0 sampleTable rfl rfl (by decide)).2.1,
   (init_table_integrity sampleKernel 0 sampleTable rfl rfl (by decide)).2.2⟩

end PmBus
